import Mathlib

/-!
A shallow embedding of the clp process and pool modules (src/task.c and
src/pool.c of hishamhm/clp), together with theorems checking the
natural-language specification against it.

Modelling conventions:
* Lua C functions that can raise (`luaL_error`) are modelled as functions
  into `Except String _`, carrying the C source's error message.
* Machine pointers (task, channel, pool, instance addresses) are modelled
  as `Nat`; a nullable pointer is `Option Nat`.
* The marshaller (`mar_encode` / `mar_decode`) is an external collaborator
  (spec section 6) whose contract is that decoding inverts encoding; it is
  modelled as an invertible wrapper around the environment table.  The
  serialized byte string and its length (`env` / `env_len` in
  `struct clp_Task`) are together represented by the opaque `EnvBytes`
  value.
* Mutex lock/unlock pairs (`intances_mutex`, the pool `lock`) guard the
  in-between updates; in this sequential embedding the guarded update is
  performed atomically, which is exactly the protection the mutex provides.
* Side effects on instances (creation by `clp_newinstance`, destruction by
  `clp_destroyinstance`) are recorded in an explicit effect trace returned
  by each task operation, so "creates exactly n Instances" and "destroys
  no Instance" are statable.
-/

namespace Clp

/-- Equality of `Except` results is decidable when both component types
have decidable equality; used to evaluate the embedded operations on
concrete inputs. -/
instance instDecEqExcept {ε α : Type} [DecidableEq ε] [DecidableEq α] :
    DecidableEq (Except ε α) := fun x y =>
  match x, y with
  | .error e1, .error e2 =>
    if h : e1 = e2 then .isTrue (congrArg Except.error h)
    else .isFalse (fun hc => h (Except.error.inj hc))
  | .ok a1, .ok a2 =>
    if h : a1 = a2 then .isTrue (congrArg Except.ok h)
    else .isFalse (fun hc => h (Except.ok.inj hc))
  | .error _, .ok _ => .isFalse (fun hc => Except.noConfusion hc)
  | .ok _, .error _ => .isFalse (fun hc => Except.noConfusion hc)

/-- A Lua function value.  User functions are opaque and distinguished by an
index; `ident` is the literal identity function `function(e) return e end`
that `clp_initinstance` installs as the default error handler. -/
inductive Func where
  | ident : Func
  | user : Nat → Func
  deriving DecidableEq

/-- The environment table built by `task_wrap` / `clp_newtask` before
encoding: field `f` is the process environment function, field `e` the
optional error function (task.c sets `e` only when the corresponding
argument is a function). -/
structure EnvTable where
  f : Func
  e : Option Func
  deriving DecidableEq

/-- Opaque serialized bytes produced by the external marshaller
(`mar_encode`); spec section 6 requires `decode (encode v)` to reproduce
`v`, so the bytes are modelled as an invertible wrapper. -/
structure EnvBytes where
  data : EnvTable
  deriving DecidableEq

/-- Modelled from the spec (section 6, external marshaller): `mar_encode`
serializes a value into opaque bytes. -/
def mar_encode (t : EnvTable) : EnvBytes := ⟨t⟩

/-- Modelled from the spec (section 6, external marshaller): `mar_decode`
inverts `mar_encode`. -/
def mar_decode (b : EnvBytes) : EnvTable := b.data

/-- The `struct clp_Task` fields used by the process module: serialized
environment (`env`/`env_len`, `none` when unset), the shared input channel
pointer, the `instances` counter (a C `int`, hence `Int`), the target pool
pointer and the non-owning parent pointer. -/
structure Task where
  env : Option EnvBytes
  input : Option Nat
  instances : Int
  pool : Option Nat
  parent : Option Nat
  deriving DecidableEq

/-- Instance lifecycle states (`I_CREATED`, `I_READY`, ... in the C
headers; task.c uses `I_CREATED` and `I_READY`). -/
inductive IState where
  | I_CREATED
  | I_READY
  | I_RUNNING
  | I_BLOCKED
  | I_DEAD
  deriving DecidableEq

/-- Expressions occurring in the driver-coroutine body loaded by
`clp_initinstance` (the Lua chunk `while true do h(s:input():get()) end`,
where `h` is the decoded environment function and `s` the task handle). -/
inductive DExpr where
  | taskHandle : Nat → DExpr
  | taskInput : DExpr → DExpr
  | channelGet : DExpr → DExpr
  | callFn : Func → DExpr → DExpr
  deriving DecidableEq

/-- Statements of the driver-coroutine body. -/
inductive DStmt where
  | whileTrue : DStmt → DStmt
  | exprStmt : DExpr → DStmt
  deriving DecidableEq

/-- A coroutine value as produced by `coroutine.wrap` in the init chunk:
its body statement. -/
structure Coroutine where
  body : DStmt
  deriving DecidableEq

/-- The per-instance interpreter state (`lua_State`) as far as task.c
touches it: the registry slots `CLP_INSTANCE_KEY`, `TASK_HANDLER_KEY`,
`CLP_ENV_KEY` and `CLP_ERRORFUNCTION_KEY`, and the list of libraries
preloaded by `clp_initinstance`. -/
structure Interp where
  instanceKey : Option Nat
  handler : Option Coroutine
  envTbl : Option EnvTable
  errfn : Option Func
  preload : List String
  deriving DecidableEq

/-- A fresh interpreter as created by `luaL_newstate` in
`clp_newinstance`: nothing installed yet. -/
def freshInterp : Interp :=
  { instanceKey := none, handler := none, envTbl := none, errfn := none,
    preload := [] }

/-- The libraries `clp_initinstance` registers in `package.preload`
(the `InstanceLibs` table of task.c, with the coroutine library). -/
def instanceLibs : List String :=
  ["io", "os", "table", "string", "math", "debug", "coroutine"]

/-- The `struct instance_s` fields set by task.c: the owned interpreter
`L`, the non-owning back pointer `task`, the lifecycle `state`, the
channel it last blocked on (`chan`) and the optional wake event (`ev`). -/
structure InstRec where
  L : Interp
  task : Nat
  state : IState
  chan : Option Nat
  ev : Option Nat
  deriving DecidableEq

/-- Embedding of `clp_newinstance` (task.c): fresh interpreter, back
pointer to the task, state `I_CREATED`, no channel, no event.  (The
handoff `clp_pushinstance` to the scheduler is outside src/.) -/
def clp_newinstance (s : Nat) : InstRec :=
  { L := freshInterp, task := s, state := .I_CREATED, chan := none,
    ev := none }

/-- Instance-affecting side effects of the task operations, recorded as an
explicit trace: `task_instantiate` creates instances via
`clp_newinstance`; no function of task.c destroys an instance directly. -/
inductive Effect where
  | createdInstance : InstRec → Effect
  | destroyedInstance : Nat → Effect
  deriving DecidableEq

/-- Embedding of `task_destroyinstances` (task.c, the `remove` method):
`n` defaults to 0 (`luaL_optint(L, 2, 0)`); negative `n` raises
"Argument must be positive"; `n = 0` returns the process unchanged;
otherwise `instances -= n` under the instances mutex.  The returned trace
is the list of instance effects (always empty: `remove` never creates or
destroys an Instance itself). -/
def task_destroyinstances (t : Task) (n : Int) :
    Except String (Task × List Effect) :=
  if n < 0 then .error "Argument must be positive"
  else if n = 0 then .ok (t, [])
  else .ok ({ t with instances := t.instances - n }, [])

/-- Embedding of `task_instantiate` (task.c, the `spawn` method): raises
when the task has no pool, then when it has no environment, then on
negative `n`; `n = 0` returns the process unchanged; otherwise, under the
instances mutex, `instances += n` and the loop calls `clp_newinstance`
exactly `n` times. -/
def task_instantiate (selfAddr : Nat) (t : Task) (n : Int) :
    Except String (Task × List Effect) :=
  if t.pool = none then .error "Process must be associated to a pool"
  else if t.env = none then .error "Process must have an environment"
  else if n < 0 then .error "Argument must be positive"
  else if n = 0 then .ok (t, [])
  else .ok ({ t with instances := t.instances + n },
            List.replicate n.toNat (Effect.createdInstance (clp_newinstance selfAddr)))

/-- Embedding of `task_wrap` (task.c): raises
"Process already have a environment" when `env` is already set; otherwise
builds the table `{f = f, e = e?}` (field `e` only when the third stack
slot holds a function), encodes it with `mar_encode` and stores the bytes
in `env`; finally calls `task_instantiate` with the constant 1 pushed by
`lua_pushnumber (L, 1)` — the `n` argument of `wrap` is never read, so its
value has no effect on the result. -/
def task_wrap (selfAddr : Nat) (t : Task) (f : Func) (e : Option Func)
    (n : Option Int) : Except String (Task × List Effect) :=
  if t.env.isSome then .error "Process already have a environment"
  else
    task_instantiate selfAddr
      { t with env := some (mar_encode { f := f, e := e }) } 1

/-- A positional argument of `clp_newtask` after the first: a Lua value
classified the way the C code classifies it (`lua_type` is `LUA_TNUMBER`,
`LUA_TFUNCTION`, or anything else / absent). -/
inductive NewArg where
  | num : Int → NewArg
  | fn : Func → NewArg
  | nil : NewArg
  deriving DecidableEq

/-- Embedding of `clp_newtask` (task.c, module function `new`).
`args = none` is the no-argument call (`lua_gettop(L) == 0`): a task with
`env = NULL`, `env_len = 0` and `idle = 0`, so no instance is created.
Otherwise the first argument must be a function `f`; `idle` is the second
argument when it is a number, else the third when it is a number, else 1;
the table `{f = f, e = arg2-when-function}` is encoded and stored.  Both
branches then fall through to the shared tail: `instances = 0`, mutex
init, allocation of a fresh input channel (`clp_channelnew`, address
`chanAddr`), `pool = clp_defaultpool`, metatable assignment, a call of
`task_instantiate` when `idle > 0`, and the parent pointer taken from the
registry's current instance (`curParent`).  `selfAddr` is the address of
the freshly allocated task struct. -/
def clp_newtask (args : Option (Func × NewArg × NewArg)) (chanAddr : Nat)
    (defaultPool : Option Nat) (curParent : Option Nat) (selfAddr : Nat) :
    Except String (Task × List Effect) :=
  match args with
  | none =>
    .ok ({ env := none, input := some chanAddr, instances := 0,
           pool := defaultPool, parent := curParent }, [])
  | some (f, a2, a3) =>
    let idle : Int :=
      match a2 with
      | .num i => i
      | _ =>
        match a3 with
        | .num i => i
        | _ => 1
    let e : Option Func :=
      match a2 with
      | .fn g => some g
      | _ => none
    let t0 : Task :=
      { env := some (mar_encode { f := f, e := e }),
        input := some chanAddr, instances := 0,
        pool := defaultPool, parent := curParent }
    if idle > 0 then task_instantiate selfAddr t0 idle
    else .ok (t0, [])

/-- Outcome of `clp_destroytask` (task.c, module function `destroy`) on a
handle whose slot still holds a task: the task struct as left on the heap,
whether the userdata slot was cleared (`*s_ptr = 0`), whether the `env`
bytes were passed to `free`, and whether the task struct itself was passed
to `free`. -/
structure DestroyResult where
  heapTask : Task
  slotCleared : Bool
  envFreed : Bool
  structFreed : Bool
  deriving DecidableEq

/-- Embedding of `clp_destroytask` (task.c) on a live handle (the two
early returns for a bad or already-cleared slot do nothing and are not
modelled): frees `s->env` when it is non-NULL, sets `s->input = NULL`,
clears the userdata slot — and never frees the task struct itself, nor
consults `s->instances`. -/
def clp_destroytask (s : Task) : DestroyResult :=
  { heapTask := { s with env := none, input := none },
    slotCleared := true,
    envFreed := s.env.isSome,
    structFreed := false }

/-- The driver body exactly as the specification words it:
`while true do env.f(task.input.get()) end`. -/
def specDriverBody (f : Func) (taskAddr : Nat) : DStmt :=
  .whileTrue (.exprStmt (.callFn f (.channelGet (.taskInput (.taskHandle taskAddr)))))

/-- Embedding of `clp_initinstance` (task.c): stores the instance pointer
under `CLP_INSTANCE_KEY`, preloads the libraries, then runs the loaded
chunk with `a[1]` the table decoded from the task's `env` bytes and
`a[2]` the task handle.  The chunk sets `a[1].e = a[1].e or
function(e) return e end` (mutating the table that was stored under
`CLP_ENV_KEY` just before the call) and returns
`coroutine.wrap(function() while true do h(s:input():get()) end end)`
with `h = a[1].f` and `s = a[2]`; the wrapped coroutine is stored under
`TASK_HANDLER_KEY` and the (defaulted) `e` field under
`CLP_ERRORFUNCTION_KEY`.  Finally `i->state = I_READY`. -/
def clp_initinstance (iAddr : Nat) (tenv : EnvBytes) (i : InstRec) : InstRec :=
  let a1 := mar_decode tenv
  let edef := a1.e.getD Func.ident
  let a1m : EnvTable := { a1 with e := some edef }
  let co : Coroutine :=
    ⟨.whileTrue (.exprStmt (.callFn a1.f
        (.channelGet (.taskInput (.taskHandle i.task)))))⟩
  { i with
    L := { instanceKey := some iAddr,
           handler := some co,
           envTbl := some a1m,
           errfn := some edef,
           preload := instanceLibs },
    state := .I_READY }

/-- A FIFO queue with an optional capacity.  Modelled from the spec
(section 4.A): the lock-free queue module is an elided collaborator not
under src/; a negative capacity means unbounded, `push` appends one item
and fails only when a non-negative capacity is reached. -/
structure Queue (α : Type) where
  items : List α
  capacity : Int
  deriving DecidableEq

/-- Modelled from the spec (section 4.A): `push` never loses items; it
fails only when a set capacity is reached. -/
def Queue.push {α : Type} (q : Queue α) (x : α) : Option (Queue α) :=
  if 0 ≤ q.capacity ∧ q.capacity ≤ (q.items.length : Int) then none
  else some { q with items := q.items ++ [x] }

/-- Modelled from the spec (section 4.A): a new queue is empty and
unbounded by default. -/
def clp_lfqueue_new {α : Type} : Queue α := { items := [], capacity := -1 }

/-- Modelled from the spec (section 4.A): `set_capacity n` with `n < 0`
means unbounded; changing capacity never drops existing items. -/
def clp_lfqueue_setcapacity {α : Type} (q : Queue α) (c : Int) : Queue α :=
  { q with capacity := c }

/-- The `struct pool_s` fields used by pool.c: the worker count `size`
(a C `int`), the spinlock word `lock`, and the ready queue of instance
pointers where `none` is the tombstone pushed by `kill`.  The ghost field
`workers` counts the live OS worker threads (spawned by `clp_newthread`,
which lives in scheduler.c outside src/ and is modelled from the spec as
creating exactly one worker per call). -/
structure Pool where
  size : Int
  lock : Nat
  workers : Nat
  ready : Queue (Option Nat)
  deriving DecidableEq

/-- Embedding of `pool_addthread` (pool.c, method `add`): `size` defaults
to 1; under the pool lock, a negative count raises, otherwise the loop
calls `clp_newthread` that many times and then adds the count to
`s->size`. -/
def pool_addthread (p : Pool) (n : Int) : Except String Pool :=
  if n < 0 then .error "argument must be positive or zero"
  else .ok { p with workers := p.workers + n.toNat, size := p.size + n }

/-- Embedding of `pool_size` (pool.c, method `size`): reads `s->size`
under the pool lock. -/
def pool_size (p : Pool) : Int := p.size

/-- Embedding of `pool_new` (pool.c, module function `new`): a negative
size raises "Initial pool size must be greater than zero"; otherwise a
pool with `size = 0`, `lock = 0` and a fresh ready queue set to capacity
-1 (unbounded) is built, and `pool_addthread` is called with the requested
size. -/
def pool_new (size : Int) : Except String Pool :=
  if size < 0 then .error "Initial pool size must be greater than zero"
  else
    pool_addthread
      { size := 0, lock := 0, workers := 0,
        ready := clp_lfqueue_setcapacity clp_lfqueue_new (-1) } size

/-- Embedding of `pool_killthread` (pool.c, method `kill`): pushes the
NULL sentinel (`none`) onto the pool's ready queue and does nothing else
(the push's return value is ignored, so a failed push leaves the pool
unchanged; the ready queue is unbounded, so in fact the push succeeds). -/
def pool_killthread (p : Pool) : Pool :=
  match Queue.push p.ready none with
  | some q => { p with ready := q }
  | none => p

/-- What a worker does after dequeuing one ready-queue item. -/
inductive WorkerAction where
  | exitWorker
  | runInstance : Nat → WorkerAction
  deriving DecidableEq

/-- Modelled from the spec (section 4.F, the dispatch loop of scheduler.c,
not under src/): each worker calls `pop_blocking` on the ready queue
(`none` result here models blocking on an empty queue); dequeuing the
tombstone makes the worker decrement the pool's size and exit; dequeuing
an instance pointer makes it run one step of that instance. -/
def worker_dequeue (p : Pool) : Option (Pool × WorkerAction) :=
  match p.ready.items with
  | [] => none
  | none :: rest =>
    some ({ p with ready := { p.ready with items := rest },
                   size := p.size - 1, workers := p.workers - 1 },
          .exitWorker)
  | some i :: rest =>
    some ({ p with ready := { p.ready with items := rest } },
          .runInstance i)

/-- A user-visible task handle: a Lua full userdata with its own identity
`uid` wrapping the task pointer `ptr`. -/
structure Handle where
  uid : Nat
  ptr : Nat
  deriving DecidableEq

/-- Embedding of `task_eq` (task.c, metamethod `__eq`): compares the
wrapped task pointers. -/
def task_eq (h1 h2 : Handle) : Bool := h1.ptr == h2.ptr

/-- Embedding of `task_ptr` (task.c, metamethod `__id`): the wrapped task
pointer as a light userdata. -/
def task_ptr (h : Handle) : Nat := h.ptr

/-- The process-wide weak-valued cache `clp-process-cache` kept in the Lua
registry, as an association list from task addresses to the handles still
alive (weak values: an entry disappears when its handle is collected, so
absence models a dead handle). -/
abbrev Cache := List (Nat × Handle)

/-- Embedding of `task_getcached` (task.c): looks the task address up in
the cache table (creating the empty weak table when absent). -/
def task_getcached (c : Cache) (t : Nat) : Option Handle :=
  match c with
  | [] => none
  | (k, h) :: rest => if k = t then some h else task_getcached rest t

/-- Embedding of `task_putcache` (task.c): stores the handle in the cache
table under the task address. -/
def task_putcache (c : Cache) (t : Nat) (h : Handle) : Cache :=
  (t, h) :: c

/-- Embedding of `clp_buildtask` (task.c): returns the cached handle when
one is still alive for this address; otherwise allocates a new userdata
(identity `freshUid`) wrapping the address, installs the metatable, and
caches it. -/
def clp_buildtask (c : Cache) (t : Nat) (freshUid : Nat) : Handle × Cache :=
  match task_getcached c t with
  | some h => (h, c)
  | none => (⟨freshUid, t⟩, task_putcache c t ⟨freshUid, t⟩)

/-- Embedding of `clp_gettask` (task.c, module function `get`): a NULL
pointer argument yields nil plus "Process not found"; otherwise the handle
is rebuilt through `clp_buildtask`. -/
def clp_gettask (c : Cache) (p : Option Nat) (freshUid : Nat) :
    Except String (Handle × Cache) :=
  match p with
  | some t => .ok (clp_buildtask c t freshUid)
  | none => .error "Process not found"

/-- Helper: every successful `task_instantiate` leaves the task's input
channel unchanged. -/
theorem task_instantiate_preserves_input (sa : Nat) (t : Task) (n : Int)
    (t2 : Task) (l : List Effect)
    (h : task_instantiate sa t n = .ok (t2, l)) : t2.input = t.input := by
  unfold task_instantiate at h
  split at h
  · exact absurd h (by simp)
  split at h
  · exact absurd h (by simp)
  split at h
  · exact absurd h (by simp)
  split at h
  · rw [Except.ok.injEq, Prod.mk.injEq] at h
    rw [← h.1]
  · rw [Except.ok.injEq, Prod.mk.injEq] at h
    rw [← h.1]

/-- C1 counterexample: on a task whose `instances` counter is 0,
`remove(1)` drives the counter to -1 instead of clamping it at zero, so
`instances >= 0` does not hold after the call. -/
theorem C1_remove_counterexample :
    task_destroyinstances
      { env := none, input := none, instances := 0, pool := none,
        parent := none } 1 =
      .ok ({ env := none, input := none, instances := -1, pool := none,
             parent := none }, []) ∧
    ({ env := none, input := none, instances := -1, pool := none,
       parent := none } : Task).instances < 0 := by
  decide

/-- C1 (amended): `remove(n)` with `n > 0` decrements `instances` by
exactly `n` with no clamping (the counter can become negative), destroys
no Instance directly (empty effect trace), and raises on negative `n`. -/
theorem C1_remove_decrements_unclamped (t : Task) (n : Int) :
    (0 < n → task_destroyinstances t n =
      .ok ({ t with instances := t.instances - n }, [])) ∧
    (n < 0 → task_destroyinstances t n = .error "Argument must be positive") := by
  constructor
  · intro hn
    unfold task_destroyinstances
    rw [if_neg (by omega), if_neg (by omega)]
  · intro hn
    unfold task_destroyinstances
    rw [if_pos hn]

/-- C1 witness: `remove(2)` on a task with one instance yields counter
`1 - 2 = -1` and an empty effect trace. -/
theorem C1_remove_witness :
    task_destroyinstances
      { env := none, input := some 0, instances := 1, pool := some 0,
        parent := none } 2 =
      .ok ({ env := none, input := some 0, instances := 1 - 2, pool := some 0,
             parent := none }, []) :=
  (C1_remove_decrements_unclamped _ 2).1 (by decide)

/-- C2: evaluated at the failing input (a fresh task with a pool and no
environment, `wrap(f, nil, 3)`), `task_wrap` stores the encoded
environment but creates exactly one Instance — the constant 1 is passed to
`task_instantiate` and the `n = 3` argument is never read; a second wrap
on the resulting task raises "Process already have a environment". -/
theorem C2_wrap_hardcodes_one_instance :
    task_wrap 7
      { env := none, input := some 1, instances := 0, pool := some 1,
        parent := none }
      (Func.user 0) none (some 3) =
      .ok ({ env := some (mar_encode { f := Func.user 0, e := none }),
             input := some 1, instances := 1, pool := some 1, parent := none },
           [Effect.createdInstance (clp_newinstance 7)]) ∧
    [Effect.createdInstance (clp_newinstance 7)].length = 1 ∧
    task_wrap 7
      { env := some (mar_encode { f := Func.user 0, e := none }),
        input := some 1, instances := 1, pool := some 1, parent := none }
      (Func.user 0) none (some 3) =
      .error "Process already have a environment" := by
  decide

/-- C3: every task built by `clp_newtask` owns the freshly allocated input
channel, regardless of whether an environment was given; in particular the
no-argument call returns an empty task (no env, no instances) that already
holds the channel. -/
theorem C3_channel_allocated_at_creation
    (args : Option (Func × NewArg × NewArg)) (ch : Nat) (dp : Option Nat)
    (cur : Option Nat) (sa : Nat) (t : Task) (l : List Effect)
    (h : clp_newtask args ch dp cur sa = .ok (t, l)) :
    t.input = some ch ∧
    clp_newtask none ch dp cur sa =
      .ok ({ env := none, input := some ch, instances := 0, pool := dp,
             parent := cur }, []) ∧
    (args = none → t.env = none) := by
  refine ⟨?_, rfl, ?_⟩
  · cases args with
    | none =>
      unfold clp_newtask at h
      rw [Except.ok.injEq, Prod.mk.injEq] at h
      rw [← h.1]
    | some a =>
      obtain ⟨f, a2, a3⟩ := a
      unfold clp_newtask at h
      dsimp only at h
      split at h
      · exact task_instantiate_preserves_input _ _ _ _ _ h
      · rw [Except.ok.injEq, Prod.mk.injEq] at h
        rw [← h.1]
  · intro ha
    subst ha
    unfold clp_newtask at h
    rw [Except.ok.injEq, Prod.mk.injEq] at h
    rw [← h.1]

/-- C3 witness: the no-argument call at concrete addresses. -/
theorem C3_newtask_witness :
    ({ env := none, input := some 5, instances := 0, pool := none,
       parent := none } : Task).input = some 5 ∧
    clp_newtask none 5 none none 9 =
      .ok ({ env := none, input := some 5, instances := 0, pool := none,
             parent := none }, []) ∧
    ((none : Option (Func × NewArg × NewArg)) = none →
      ({ env := none, input := some 5, instances := 0, pool := none,
         parent := none } : Task).env = none) :=
  C3_channel_allocated_at_creation none 5 none none 9
    { env := none, input := some 5, instances := 0, pool := none,
      parent := none } [] (by decide)

/-- C4: `spawn(n)` raises a synchronous error when the task has no pool,
or (with a pool) no environment; with both set and `n >= 0` it adds
exactly `n` to the `instances` counter under the mutex and calls
`clp_newinstance` exactly `n` times. -/
theorem C4_spawn_checks_and_counts (sa : Nat) (t : Task) (n : Int) :
    (t.pool = none →
      task_instantiate sa t n = .error "Process must be associated to a pool") ∧
    (t.pool ≠ none → t.env = none →
      task_instantiate sa t n = .error "Process must have an environment") ∧
    (t.pool ≠ none → t.env ≠ none → 0 ≤ n →
      task_instantiate sa t n =
        .ok ({ t with instances := t.instances + n },
             List.replicate n.toNat
               (Effect.createdInstance (clp_newinstance sa)))) := by
  refine ⟨fun hp => ?_, fun hp he => ?_, fun hp he hn => ?_⟩
  · unfold task_instantiate
    rw [if_pos hp]
  · unfold task_instantiate
    rw [if_neg hp, if_pos he]
  · unfold task_instantiate
    rw [if_neg hp, if_neg he, if_neg (by omega)]
    by_cases h0 : n = 0
    · subst h0
      rw [if_pos rfl]
      simp
    · rw [if_neg h0]

/-- C4 witness: spawning 2 instances on a task with pool and environment
set. -/
theorem C4_spawn_witness :
    task_instantiate 3
      { env := some (mar_encode { f := Func.user 0, e := none }),
        input := some 1, instances := 0, pool := some 2, parent := none } 2 =
      .ok ({ env := some (mar_encode { f := Func.user 0, e := none }),
             input := some 1, instances := 0 + 2, pool := some 2,
             parent := none },
           List.replicate (Int.toNat 2)
             (Effect.createdInstance (clp_newinstance 3))) :=
  (C4_spawn_checks_and_counts 3 _ 2).2.2 (by decide) (by decide) (by decide)

/-- C5: after `clp_initinstance`, the interpreter's registry holds under
`TASK_HANDLER_KEY` a coroutine whose body is exactly the loop the spec
describes (`while true do env.f(task.input.get()) end` against this
instance's task), the installed error function is the decoded `e`
defaulting to the identity function when none was serialized, and the
instance state is `I_READY`. -/
theorem C5_init_driver_errfn_ready (iAddr : Nat) (b : EnvBytes) (i : InstRec) :
    (clp_initinstance iAddr b i).L.handler =
      some ⟨specDriverBody (mar_decode b).f i.task⟩ ∧
    (clp_initinstance iAddr b i).L.errfn =
      some ((mar_decode b).e.getD Func.ident) ∧
    ((mar_decode b).e = none →
      (clp_initinstance iAddr b i).L.errfn = some Func.ident) ∧
    (clp_initinstance iAddr b i).state = IState.I_READY := by
  refine ⟨rfl, rfl, fun he => ?_, rfl⟩
  show some ((mar_decode b).e.getD Func.ident) = some Func.ident
  rw [he]
  rfl

/-- C5 witness: initializing a fresh instance of a task whose environment
has no serialized error function installs the identity error handler. -/
theorem C5_init_witness :
    (clp_initinstance 0 (mar_encode { f := Func.user 1, e := none })
      (clp_newinstance 4)).L.errfn = some Func.ident :=
  (C5_init_driver_errfn_ready 0 _ _).2.2.1 (by decide)

/-- C6: `pool_new` raises for every negative size; for every size >= 0 it
returns a pool with an unbounded (capacity -1) empty ready queue, the
worker counter equal to `size`, and exactly `size` spawned worker threads;
in particular `pool_new 0` succeeds with a worker-less pool whose `size()`
is 0. -/
theorem C6_pool_new_spec (size : Int) :
    (size < 0 →
      pool_new size = .error "Initial pool size must be greater than zero") ∧
    (0 ≤ size → pool_new size =
      .ok { size := size, lock := 0, workers := size.toNat,
            ready := { items := [], capacity := -1 } }) ∧
    (pool_new 0 = .ok { size := 0, lock := 0, workers := 0,
                        ready := { items := [], capacity := -1 } } ∧
     pool_size { size := 0, lock := 0, workers := 0,
                 ready := { items := [], capacity := -1 } } = 0) := by
  refine ⟨fun hn => ?_, fun hn => ?_, by decide⟩
  · unfold pool_new
    rw [if_pos hn]
  · unfold pool_new pool_addthread
    rw [if_neg (by omega), if_neg (by omega)]
    simp [clp_lfqueue_new, clp_lfqueue_setcapacity]

/-- C6 witness: a pool of two workers. -/
theorem C6_pool_new_witness :
    pool_new 2 = .ok { size := 2, lock := 0, workers := Int.toNat 2,
                       ready := { items := [], capacity := -1 } } :=
  (C6_pool_new_spec 2).2.1 (by decide)

/-- C7: `kill()` appends exactly one tombstone (the null sentinel) to the
pool's ready queue — which is unbounded, hence the hypothesis on its
capacity — and changes no other pool field; the size decrement happens
only later, when a worker dequeues the tombstone and exits. -/
theorem C7_kill_pushes_one_tombstone (p : Pool) (hc : p.ready.capacity < 0) :
    (pool_killthread p).ready.items = p.ready.items ++ [none] ∧
    (pool_killthread p).ready.capacity = p.ready.capacity ∧
    (pool_killthread p).size = p.size ∧
    (pool_killthread p).workers = p.workers ∧
    (pool_killthread p).lock = p.lock ∧
    (p.ready.items = [] →
      worker_dequeue (pool_killthread p) =
        some ({ p with size := p.size - 1, workers := p.workers - 1 },
              WorkerAction.exitWorker)) := by
  obtain ⟨ps, pl, pw, qi, qc⟩ := p
  have hpush : pool_killthread ⟨ps, pl, pw, ⟨qi, qc⟩⟩ =
      ⟨ps, pl, pw, ⟨qi ++ [none], qc⟩⟩ := by
    unfold pool_killthread Queue.push
    rw [if_neg (by dsimp only at hc ⊢; omega)]
  rw [hpush]
  refine ⟨rfl, rfl, rfl, rfl, rfl, fun hi => ?_⟩
  dsimp only at hi
  subst hi
  rfl

/-- C7 witness: killing on a one-worker pool with an empty ready queue,
then letting a worker dequeue, removes the tombstone and decrements the
size. -/
theorem C7_kill_witness :
    worker_dequeue (pool_killthread
      { size := 1, lock := 0, workers := 1,
        ready := { items := [], capacity := -1 } }) =
      some ({ size := 1 - 1, lock := 0, workers := 1 - 1,
              ready := { items := [], capacity := -1 } },
            WorkerAction.exitWorker) :=
  (C7_kill_pushes_one_tombstone _ (by decide)).2.2.2.2.2 (by decide)

/-- C8: handle equality is equality of the wrapped task pointers, so two
handles to the same underlying task compare equal; and for a live handle
(one still present in the weak cache), `get(h.ptr)` returns the very same
handle without touching the cache. -/
theorem C8_handle_identity (c : Cache) (h : Handle) (u : Nat)
    (hlive : task_getcached c h.ptr = some h) :
    clp_gettask c (some (task_ptr h)) u = .ok (h, c) ∧
    task_eq h h = true ∧
    (∀ h1 h2 : Handle, h1.ptr = h2.ptr → task_eq h1 h2 = true) := by
  refine ⟨?_, ?_, fun h1 h2 he => ?_⟩
  · simp only [clp_gettask, clp_buildtask, task_ptr, hlive]
  · simp [task_eq]
  · simp [task_eq, he]

/-- C8 witness: a cached handle at address 5 is returned identically by
`get`. -/
theorem C8_handle_witness :
    clp_gettask [(5, Handle.mk 0 5)] (some (task_ptr (Handle.mk 0 5))) 9 =
      .ok (Handle.mk 0 5, [(5, Handle.mk 0 5)]) :=
  (C8_handle_identity [(5, Handle.mk 0 5)] (Handle.mk 0 5) 9 (by decide)).1

/-- C9 counterexample: on a task with `instances = 1` and a stored
environment, `clp_destroytask` frees the env bytes anyway — the claim that
destroy does not release the env while `instances > 0` fails. -/
theorem C9_destroy_counterexample :
    (0 : Int) <
      ({ env := some (mar_encode { f := Func.user 0, e := none }),
         input := some 1, instances := 1, pool := some 0,
         parent := none } : Task).instances ∧
    (clp_destroytask
      { env := some (mar_encode { f := Func.user 0, e := none }),
        input := some 1, instances := 1, pool := some 0,
        parent := none }).envFreed = true ∧
    (clp_destroytask
      { env := some (mar_encode { f := Func.user 0, e := none }),
        input := some 1, instances := 1, pool := some 0,
        parent := none }).heapTask.env = none := by
  decide

/-- C9 (amended): `destroy(t)` never frees the task struct itself, but it
unconditionally frees the env bytes (when set) and clears the handle slot,
even while `t.instances > 0`; the instances counter is neither consulted
nor changed. -/
theorem C9_destroy_ignores_instances (s : Task) (hpos : 0 < s.instances) :
    (clp_destroytask s).envFreed = s.env.isSome ∧
    (clp_destroytask s).heapTask.env = none ∧
    (clp_destroytask s).slotCleared = true ∧
    (clp_destroytask s).structFreed = false ∧
    (clp_destroytask s).heapTask.instances = s.instances := by
  exact ⟨rfl, rfl, rfl, rfl, rfl⟩

/-- C9 witness: destroying a task with a positive instance counter. -/
theorem C9_destroy_witness :
    (clp_destroytask
      { env := some (mar_encode { f := Func.user 2, e := none }),
        input := some 1, instances := 3, pool := some 0,
        parent := none }).structFreed = false :=
  (C9_destroy_ignores_instances _ (by decide)).2.2.2.1

/-- C10: `spawn(0)` (given pool and environment) and `remove(0)` leave the
task completely unchanged, return it, and record no instance effect;
`spawn(0)` still performs the pool and environment checks first. -/
theorem C10_zero_spawn_remove_noops (sa : Nat) (t : Task) :
    (t.pool ≠ none → t.env ≠ none → task_instantiate sa t 0 = .ok (t, [])) ∧
    task_destroyinstances t 0 = .ok (t, []) ∧
    (t.pool = none →
      task_instantiate sa t 0 = .error "Process must be associated to a pool") ∧
    (t.pool ≠ none → t.env = none →
      task_instantiate sa t 0 = .error "Process must have an environment") := by
  refine ⟨fun hp he => ?_, ?_, fun hp => ?_, fun hp he => ?_⟩
  · unfold task_instantiate
    rw [if_neg hp, if_neg he, if_neg (by omega), if_pos rfl]
  · unfold task_destroyinstances
    rw [if_neg (by omega), if_pos rfl]
  · unfold task_instantiate
    rw [if_pos hp]
  · unfold task_instantiate
    rw [if_neg hp, if_pos he]

/-- C10 witness: spawn(0) and remove(0) on a fully set-up task. -/
theorem C10_zero_witness :
    task_instantiate 0
      { env := some (mar_encode { f := Func.user 0, e := none }),
        input := some 1, instances := 4, pool := some 2, parent := none } 0 =
      .ok ({ env := some (mar_encode { f := Func.user 0, e := none }),
             input := some 1, instances := 4, pool := some 2,
             parent := none }, []) ∧
    task_destroyinstances
      { env := some (mar_encode { f := Func.user 0, e := none }),
        input := some 1, instances := 4, pool := some 2, parent := none } 0 =
      .ok ({ env := some (mar_encode { f := Func.user 0, e := none }),
             input := some 1, instances := 4, pool := some 2,
             parent := none }, []) :=
  ⟨(C10_zero_spawn_remove_noops 0 _).1 (by decide) (by decide),
   (C10_zero_spawn_remove_noops 0 _).2.1⟩

end Clp
